import Mathlib

/-!
Shallow embedding of the anti-detection scraping core of CorpCraftOS
(`src/corpcraft/aicrm/middleware/proxy_pool.py`,
`src/corpcraft/aicrm_system/backend/app/services/captcha_solver.py`,
`src/corpcraft/aicrm_system/backend/app/services/scraper.py`,
`src/corpcraft/aicrm_system/backend/app/services/anti_detection.py`).

Machine time (`datetime.now()` / `time.time()`) is passed explicitly as a
rational-number parameter; floats are modelled as rationals; fallible or
randomised operations take their random draws and network outcomes as
explicit parameters.
-/

namespace CorpCraft

/-- Lifecycle status of a proxy, from `ProxyStatus` in
`aicrm/middleware/proxy_pool.py`. -/
inductive ProxyStatus where
  | unknown
  | working
  | failed
  | testing
deriving DecidableEq, Repr

/-- Protocol of a proxy, from `ProxyType` in `aicrm/middleware/proxy_pool.py`. -/
inductive ProxyType where
  | http
  | https
  | socks5
deriving DecidableEq, Repr

/-- State of one proxy candidate, from the dataclass `ProxyInfo` in
`aicrm/middleware/proxy_pool.py`.  Timestamps (`last_check_time`,
`last_success_time`) are rational seconds since an arbitrary epoch. -/
structure ProxyInfo where
  proxy_url : String
  proxy_type : ProxyType := ProxyType.http
  source : String := "manual"
  success_count : Nat := 0
  failure_count : Nat := 0
  total_requests : Nat := 0
  avg_response_time : ℚ := 0
  last_check_time : Option ℚ := none
  last_success_time : Option ℚ := none
  quality_score : ℚ := 50
  status : ProxyStatus := ProxyStatus.unknown
  recent_errors : List String := []
deriving DecidableEq, Repr

namespace ProxyInfo

/-- `ProxyInfo.success_rate`: `success_count / total_requests`, `0` when no
requests have been made. -/
def success_rate (p : ProxyInfo) : ℚ :=
  if p.total_requests = 0 then 0
  else (p.success_count : ℚ) / (p.total_requests : ℚ)

/-- The four summands of `ProxyInfo.update_quality_score`, evaluated at time
`now` (the embedding of `datetime.now()` at the moment of the call). -/
def success_rate_score (p : ProxyInfo) : ℚ := p.success_rate * 40

/-- Response-time summand: `max(0, 30 - avg_response_time * 30)`. -/
def response_time_score (p : ProxyInfo) : ℚ :=
  max 0 (30 - p.avg_response_time * 30)

/-- Recency summand: `max(0, 20 - hours_since_success)` when a success has
been recorded, `0` otherwise. -/
def recent_success_score (now : ℚ) (p : ProxyInfo) : ℚ :=
  match p.last_success_time with
  | none => 0
  | some t => max 0 (20 - (now - t) / 3600)

/-- Stability summand: `max(0, 10 - failure_count * 0.5)`. -/
def stability_score (p : ProxyInfo) : ℚ :=
  max 0 (10 - (p.failure_count : ℚ) * (1 / 2))

/-- `ProxyInfo.update_quality_score` (proxy_pool.py lines 73-90): recompute
`quality_score` from the counters and timestamps. -/
def update_quality_score (now : ℚ) (p : ProxyInfo) : ProxyInfo :=
  { p with quality_score :=
      p.success_rate_score + p.response_time_score
        + p.recent_success_score now + p.stability_score }

/-- `ProxyInfo.record_success` (proxy_pool.py lines 92-108): bump the
success counters, stamp the times, set status `WORKING`, fold the response
time into the moving average, clear recent errors, recompute the score. -/
def record_success (now response_time : ℚ) (p : ProxyInfo) : ProxyInfo :=
  let p1 : ProxyInfo :=
    { p with
      success_count := p.success_count + 1
      total_requests := p.total_requests + 1
      last_success_time := some now
      last_check_time := some now
      status := ProxyStatus.working
      avg_response_time :=
        if p.avg_response_time = 0 then response_time
        else p.avg_response_time * (4 / 5) + response_time * (1 / 5)
      recent_errors := [] }
  p1.update_quality_score now

/-- `ProxyInfo.record_failure` (proxy_pool.py lines 110-126): bump the
failure counters, stamp the check time, push the error (keeping at most 5),
mark `FAILED` once `failure_count >= 3` and `failure_count > success_count`,
recompute the score. -/
def record_failure (now : ℚ) (error : String) (p : ProxyInfo) : ProxyInfo :=
  let fc := p.failure_count + 1
  let errs :=
    if error = "" then p.recent_errors
    else
      let l := p.recent_errors ++ [error]
      if 5 < l.length then l.tail else l
  let p1 : ProxyInfo :=
    { p with
      failure_count := fc
      total_requests := p.total_requests + 1
      last_check_time := some now
      recent_errors := errs
      status :=
        if 3 ≤ fc ∧ p.success_count < fc then ProxyStatus.failed
        else p.status }
  p1.update_quality_score now

end ProxyInfo

/-- One outcome-recording call on a candidate: either
`record_success(now, response_time)` or `record_failure(now, error)`. -/
inductive RecordOp where
  | success (now response_time : ℚ)
  | failure (now : ℚ) (error : String)
deriving DecidableEq, Repr

/-- Apply one recording call to a candidate. -/
def applyOp (p : ProxyInfo) : RecordOp → ProxyInfo
  | RecordOp.success now rt => p.record_success now rt
  | RecordOp.failure now e => p.record_failure now e

/-- Apply a sequence of recording calls, first element first. -/
def applyOps (p : ProxyInfo) (ops : List RecordOp) : ProxyInfo :=
  ops.foldl applyOp p

/-- What the network did during one validation probe: an HTTP response with
a status code after `elapsed` seconds, a timeout, or a raised exception
carrying its message. -/
inductive ProbeOutcome where
  | httpResp (status : Nat) (elapsed : ℚ)
  | timeout
  | exc (message : String) (elapsed : ℚ)
deriving DecidableEq, Repr

/-- Result dictionary of `ProxyValidator.validate_proxy`
(proxy_pool.py lines 140-192). -/
structure ValidationResult where
  valid : Bool
  response_time : ℚ
  status_code : Option Nat
  error : Option String
deriving DecidableEq, Repr

/-- `ProxyValidator.validate_proxy` (proxy_pool.py lines 140-192): a 200
response is valid; any other status, a timeout, or any exception yields an
invalid result carrying the error string — nothing propagates. -/
def validate_proxy (timeout : ℚ) : ProbeOutcome → ValidationResult
  | ProbeOutcome.httpResp st elapsed =>
    if st = 200 then
      { valid := true, response_time := elapsed, status_code := some st,
        error := none }
    else
      { valid := false, response_time := elapsed, status_code := some st,
        error := some ("HTTP " ++ toString st) }
  | ProbeOutcome.timeout =>
    { valid := false, response_time := timeout, status_code := none,
      error := some "Timeout" }
  | ProbeOutcome.exc msg elapsed =>
    { valid := false, response_time := elapsed, status_code := none,
      error := some msg }

namespace ProxyPool

/-- `ProxyPool._validate_single` (proxy_pool.py lines 458-466): mark the
candidate `TESTING`, then feed the validation result through
`record_success` / `record_failure`. -/
def validateSingle (now : ℚ) (res : ValidationResult) (p : ProxyInfo) :
    ProxyInfo :=
  let p1 : ProxyInfo := { p with status := ProxyStatus.testing }
  if res.valid then p1.record_success now res.response_time
  else p1.record_failure now (res.error.getD "Unknown error")

/-- `ProxyPool.add_proxy` (proxy_pool.py lines 382-405): reject duplicates
(the md5 key of the URL is modelled by the URL itself), infer the protocol
from the URL prefix, insert a fresh `ProxyInfo`.  Returns the new pool and
whether the candidate was added. -/
def add_proxy (pool : List ProxyInfo) (url : String) (src : String) :
    List ProxyInfo × Bool :=
  if pool.any (fun p => p.proxy_url = url) then (pool, false)
  else
    let ptype :=
      if url.startsWith "https" then ProxyType.https
      else if url.startsWith "socks5" then ProxyType.socks5
      else ProxyType.http
    (pool ++ [{ proxy_url := url, proxy_type := ptype, source := src }], true)

/-- `ProxyPool.validate_all` (proxy_pool.py lines 434-456): revalidate every
candidate that is not already `FAILED`; `probe` gives the network outcome of
each candidate's probe. -/
def validate_all (now timeout : ℚ) (probe : String → ProbeOutcome)
    (pool : List ProxyInfo) : List ProxyInfo :=
  pool.map fun p =>
    if p.status = ProxyStatus.failed then p
    else validateSingle now (validate_proxy timeout (probe p.proxy_url)) p

/-- `ProxyPool.auto_fetch_proxies` (proxy_pool.py lines 415-432): add every
fetched URL that is not already present (source `"free"`); if at least one
was added, revalidate the whole pool. -/
def auto_fetch_proxies (now timeout : ℚ) (probe : String → ProbeOutcome)
    (fetched : List String) (pool : List ProxyInfo) : List ProxyInfo :=
  let step := fetched.foldl
    (fun (acc : List ProxyInfo × Nat) url =>
      let r := add_proxy acc.1 url "free"
      (r.1, acc.2 + (if r.2 then 1 else 0)))
    (pool, 0)
  if 0 < step.2 then validate_all now timeout probe step.1 else step.1

/-- The weighted-pick loop of `ProxyPool.get_proxy` (proxy_pool.py lines
357-365): walk the candidates accumulating weights until the draw `rand` is
covered; past the end, fall back to `available[-1]`. -/
def pickGo (fallback : Option ProxyInfo) (rand : ℚ) :
    List ProxyInfo → ℚ → Option ProxyInfo
  | [], _ => fallback
  | p :: rest, current =>
    if rand ≤ current + p.quality_score then some p
    else pickGo fallback rand rest (current + p.quality_score)

/-- The selection step of `ProxyPool.get_proxy` (proxy_pool.py lines
346-365): `None` on an empty candidate list; a uniform `random.choice`
(modelled by `choiceIdx`) when the total weight is zero; otherwise the
weighted pick driven by the draw `rand` from `random.uniform(0, total)`. -/
def weightedSelect (l : List ProxyInfo) (rand : ℚ) (choiceIdx : Nat) :
    Option ProxyInfo :=
  if l.isEmpty then none
  else
    let total := (l.map ProxyInfo.quality_score).sum
    if total = 0 then l.get? (choiceIdx % l.length)
    else pickGo l.getLast? rand l 0

/-- Environment of one `get_proxy` call: the auto-fetch flag, the URLs the
fetcher would return, the network outcome of each validation probe, the
validator timeout, the clock, and the two random draws. -/
structure SelectEnv where
  auto_fetch : Bool
  fetched : List String
  probe : String → ProbeOutcome
  timeout : ℚ
  now : ℚ
  rand : ℚ
  choiceIdx : Nat

/-- `ProxyPool.get_proxy` (proxy_pool.py lines 317-365): filter to `WORKING`
candidates at or above the threshold; if none, optionally auto-fetch and
fall back to all non-`FAILED` candidates; pick weighted-randomly; `none`
when nothing is available.  Returns the selection and the pool it left
behind.  Caveat: in the source, `get_proxy` holds `self._lock` while
`auto_fetch_proxies` calls `add_proxy` (line 425), which re-acquires the
same non-reentrant `asyncio.Lock` (line 384) — so whenever the auto-fetch
branch is reached with a non-empty feed, the source call deadlocks at the
first `add_proxy` and never completes.  This embedding gives that branch
its would-be completion; every theorem about `get_proxy` below is
restricted to environments in which the source call completes
(`auto_fetch = false` or an empty feed, where no `add_proxy` runs and
`validate_all` is skipped because nothing was added). -/
def get_proxy (env : SelectEnv) (pool : List ProxyInfo)
    (quality_threshold : ℚ) : Option ProxyInfo × List ProxyInfo :=
  let avail1 := pool.filter fun p =>
    decide (p.status = ProxyStatus.working ∧
      quality_threshold ≤ p.quality_score)
  if avail1.isEmpty then
    let pool1 :=
      if env.auto_fetch then
        auto_fetch_proxies env.now env.timeout env.probe env.fetched pool
      else pool
    let avail2 := pool1.filter fun p =>
      decide (p.status ≠ ProxyStatus.failed)
    (weightedSelect avail2 env.rand env.choiceIdx, pool1)
  else
    (weightedSelect avail1 env.rand env.choiceIdx, pool)

/-- `ProxyPool.mark_failure` (proxy_pool.py lines 372-380): record the
failure on the candidate keyed by `url`, then remove it from the pool when
its `failure_count` has reached 10. -/
def mark_failure (now : ℚ) (error : String) (url : String)
    (pool : List ProxyInfo) : List ProxyInfo :=
  let pool1 := pool.map fun p =>
    if p.proxy_url = url then p.record_failure now error else p
  pool1.filter fun p =>
    !(decide (p.proxy_url = url) && decide (10 ≤ p.failure_count))

end ProxyPool

/-- Token-bucket state of `RateLimiter` in
`aicrm_system/backend/app/services/scraper.py` (lines 91-114).  `burst` is
the capacity; `tokens` starts at `burst`. -/
structure RateLimiterState where
  rate_per_second : ℚ
  burst : ℚ
  tokens : ℚ
  last_update : ℚ
deriving DecidableEq, Repr

namespace RateLimiter

/-- The lazy refill inside `RateLimiter.acquire` (scraper.py lines
104-106): `min(burst, tokens + elapsed * rate_per_second)`. -/
def refillTokens (s : RateLimiterState) (now : ℚ) : ℚ :=
  min s.burst (s.tokens + (now - s.last_update) * s.rate_per_second)

/-- `RateLimiter.acquire` (scraper.py lines 101-114): refill, stamp
`last_update`; with less than one token, sleep out the deficit and set the
count to `0`; otherwise spend one token. -/
def acquire (s : RateLimiterState) (now : ℚ) : RateLimiterState :=
  let t := refillTokens s now
  let s1 : RateLimiterState := { s with tokens := t, last_update := now }
  if t < 1 then { s1 with tokens := 0 }
  else { s1 with tokens := t - 1 }

end RateLimiter

/-- Solver identifiers, from `SolverType` in
`aicrm_system/backend/app/services/captcha_solver.py`. -/
inductive SolverType where
  | ocr
  | ddddocr
  | manual
  | api2captcha
  | antiCaptcha
  | deathbycaptcha
deriving DecidableEq, Repr

/-- The dataclass `CaptchaResult` of
`aicrm_system/backend/app/services/captcha_solver.py` (lines 57-65). -/
structure CaptchaResult where
  success : Bool
  answer : Option String := none
  confidence : ℚ := 0
  solver_used : Option SolverType := none
  error : Option String := none
  solve_time : ℚ := 0
deriving DecidableEq, Repr

/-- Behaviour of one strategy of the cascade loop in `CaptchaSolver.solve`
(backend captcha_solver.py lines 506-535): skipped because it is not
configured (`solver_type not in self.solvers`), raised an exception
(caught, cascade continues), or returned a `CaptchaResult`. -/
inductive SolverBehavior where
  | unavailable
  | raised (message : String)
  | returns (r : CaptchaResult)
deriving DecidableEq, Repr

namespace CaptchaSolver

/-- The outcome `CaptchaSolver.solve` builds when the strategy list is
exhausted (backend captcha_solver.py lines 532-535). -/
def allFailedResult : CaptchaResult :=
  { success := false, error := some "All solvers failed" }

/-- The cascade loop of `CaptchaSolver.solve` (backend captcha_solver.py
lines 506-535): try the strategies in configured priority order, return the
first successful result unchanged; when every strategy fails, return
`allFailedResult`. -/
def solve : List SolverBehavior → CaptchaResult
  | [] => allFailedResult
  | SolverBehavior.unavailable :: rest => solve rest
  | SolverBehavior.raised _ :: rest => solve rest
  | SolverBehavior.returns r :: rest => if r.success then r else solve rest

/-- Number of strategies the cascade loop actually invokes (skipped
unavailable strategies are not invoked; the loop stops at the first
success). -/
def solveInvoked : List SolverBehavior → Nat
  | [] => 0
  | SolverBehavior.unavailable :: rest => solveInvoked rest
  | SolverBehavior.raised _ :: rest => 1 + solveInvoked rest
  | SolverBehavior.returns r :: rest =>
    if r.success then 1 else 1 + solveInvoked rest

end CaptchaSolver

/-- Timestamp a recording call carries (the `datetime.now()` of the call). -/
def opNow : RecordOp → ℚ
  | RecordOp.success now _ => now
  | RecordOp.failure now _ => now

/-- The response-time argument of a recording call (`0` for failures). -/
def opResponseTime : RecordOp → ℚ
  | RecordOp.success _ rt => rt
  | RecordOp.failure _ _ => 0

/-- Recency sub-score on a 0-100 scale: decays linearly since the last
success (5 points per hour, the source's rate), `0` if never succeeded. -/
def recency100 (now : ℚ) (p : ProxyInfo) : ℚ :=
  match p.last_success_time with
  | none => 0
  | some t => max 0 (100 - 5 * ((now - t) / 3600))

/-- Stability sub-score on a 0-100 scale: penalises the absolute failure
count (5 points per failure, the source's rate). -/
def stability100 (p : ProxyInfo) : ℚ :=
  max 0 (100 - 5 * (p.failure_count : ℚ))

/-- The quality formula exactly as claimed: weighted sum
`0.4·successRate + 0.3·latencyScore + 0.2·recencyScore + 0.1·stabilityScore`
on a 0-100 scale with the latency score decaying linearly to 0 at a ceiling
of THREE seconds.  Recency and stability follow the source's decay rates
(the claim leaves those configurable). -/
def quality_score_claim3s (now : ℚ) (p : ProxyInfo) : ℚ :=
  (4 / 10) * (100 * p.success_rate)
    + (3 / 10) * max 0 (100 * (1 - p.avg_response_time / 3))
    + (2 / 10) * recency100 now p
    + (1 / 10) * stability100 p

/-- A failed captcha attempt result used in concrete cascade runs. -/
def cexFailR : CaptchaResult :=
  { success := false, error := some "wrong answer" }

/-- A second, distinct failed attempt result. -/
def cexFailR2 : CaptchaResult :=
  { success := false, error := some "Timeout",
    solver_used := some SolverType.ocr }

/-- A successful captcha attempt result used in concrete cascade runs. -/
def cexOkR : CaptchaResult :=
  { success := true, answer := some "abcd", confidence := 9 / 10,
    solver_used := some SolverType.ddddocr }

/-- A rate-limiter state holding half a token (reachable from the initial
state: capacity 10, rate 1/s, after acquisitions and partial refills). -/
def c3State : RateLimiterState :=
  { rate_per_second := 1, burst := 10, tokens := 1 / 2, last_update := 0 }

/-- The initial rate-limiter state of the source constructor defaults:
capacity 10, rate 1/s, full bucket. -/
def c3Full : RateLimiterState :=
  { rate_per_second := 1, burst := 10, tokens := 10, last_update := 0 }

/-- A veteran candidate: 50 successes, 9 failures. -/
def c5Proxy : ProxyInfo :=
  { proxy_url := "u", success_count := 50, failure_count := 9,
    total_requests := 59, status := ProxyStatus.working }

/-- A selection environment with auto-fetch disabled and an empty feed. -/
def c4Env : ProxyPool.SelectEnv :=
  { auto_fetch := false, fetched := [],
    probe := fun _ => ProbeOutcome.timeout,
    timeout := 10, now := 0, rand := 0, choiceIdx := 0 }

/-- A working candidate at the default quality of 50. -/
def c4Proxy : ProxyInfo :=
  { proxy_url := "w", status := ProxyStatus.working,
    success_count := 1, total_requests := 1 }

/-- `record_success` always leaves the candidate `WORKING`. -/
theorem record_success_status (p : ProxyInfo) (now rt : ℚ) :
    (p.record_success now rt).status = ProxyStatus.working := rfl

/-- Status after `record_failure`: `FAILED` once the new failure count has
reached 3 and strictly exceeds the success count, else unchanged. -/
theorem record_failure_status (p : ProxyInfo) (now : ℚ) (e : String) :
    (p.record_failure now e).status =
      if 3 ≤ p.failure_count + 1 ∧ p.success_count < p.failure_count + 1
      then ProxyStatus.failed else p.status := rfl

/-- The counter deltas of one recording call preserve
`total_requests = success_count + failure_count`. -/
theorem applyOps_counters_inv :
    ∀ (ops : List RecordOp) (p : ProxyInfo),
      p.total_requests = p.success_count + p.failure_count →
      (applyOps p ops).total_requests =
        (applyOps p ops).success_count + (applyOps p ops).failure_count := by
  intro ops
  induction ops with
  | nil => intro p h; exact h
  | cons op rest ih =>
    intro p h
    have hstep : (applyOp p op).total_requests =
        (applyOp p op).success_count + (applyOp p op).failure_count := by
      cases op with
      | success now rt =>
        show p.total_requests + 1 = (p.success_count + 1) + p.failure_count
        omega
      | failure now e =>
        show p.total_requests + 1 = p.success_count + (p.failure_count + 1)
        omega
    exact ih (applyOp p op) hstep

/-- C1, counterexample.  The claim asserts a candidate whose status is
`Failed` is never set to `Working` by a `recordSuccess` call without an
explicit revalidation.  On the code it is: three `record_failure` calls
drive a fresh candidate to `FAILED`, and then a single `record_success`
call — no revalidation anywhere — makes it `WORKING`, because
`ProxyInfo.record_success` assigns `status = WORKING` unconditionally. -/
theorem C1_counterexample :
    (applyOps { proxy_url := "u" }
      [RecordOp.failure 0 "", RecordOp.failure 0 "",
       RecordOp.failure 0 ""]).status = ProxyStatus.failed ∧
    (applyOps { proxy_url := "u" }
      [RecordOp.failure 0 "", RecordOp.failure 0 "", RecordOp.failure 0 "",
       RecordOp.success 1 1]).status = ProxyStatus.working := by
  decide

/-- C1, amended.  Within `recordSuccess`/`recordFailure` sequences, a
`Failed → Working` transition happens exactly at `record_success` calls:
`record_success` sets the status to `Working` unconditionally (so it does
silently reinstate a `Failed` candidate), while `record_failure` never
moves a `Failed` candidate to `Working`. -/
theorem C1_amended :
    (∀ (p : ProxyInfo) (op : RecordOp),
        p.status = ProxyStatus.failed →
        (applyOp p op).status = ProxyStatus.working →
        ∃ now rt, op = RecordOp.success now rt) ∧
    (∀ (p : ProxyInfo) (now rt : ℚ),
        (p.record_success now rt).status = ProxyStatus.working) := by
  constructor
  · intro p op hF hW
    cases op with
    | success now rt => exact ⟨now, rt, rfl⟩
    | failure now e =>
      exfalso
      rw [show (applyOp p (RecordOp.failure now e)).status =
            (p.record_failure now e).status from rfl,
          record_failure_status] at hW
      split at hW
      · exact ProxyStatus.noConfusion hW
      · rw [hF] at hW
        exact ProxyStatus.noConfusion hW
  · intro p now rt
    rfl

/-- C1, witness: the amended theorem applied to the concrete `FAILED`
candidate of the counterexample and a concrete `record_success` call. -/
theorem C1_witness :
    ∃ now rt, RecordOp.success (1 : ℚ) (1 : ℚ) = RecordOp.success now rt :=
  C1_amended.1
    (applyOps { proxy_url := "u" }
      [RecordOp.failure 0 "", RecordOp.failure 0 "", RecordOp.failure 0 ""])
    (RecordOp.success 1 1) (by decide) (by decide)

/-- C10: starting from freshly created counters, after any sequence of
`record_success`/`record_failure` calls `total_requests` equals
`success_count + failure_count`; each `record_success` bumps
`success_count` and `total_requests` by exactly 1 (leaving
`failure_count`), and each `record_failure` bumps `failure_count` and
`total_requests` by exactly 1 (leaving `success_count`). -/
theorem C10_counters_balance :
    (∀ (url : String) (ops : List RecordOp),
        (applyOps { proxy_url := url } ops).total_requests =
          (applyOps { proxy_url := url } ops).success_count +
            (applyOps { proxy_url := url } ops).failure_count) ∧
    (∀ (p : ProxyInfo) (now rt : ℚ),
        (p.record_success now rt).success_count = p.success_count + 1 ∧
        (p.record_success now rt).total_requests = p.total_requests + 1 ∧
        (p.record_success now rt).failure_count = p.failure_count) ∧
    (∀ (p : ProxyInfo) (now : ℚ) (e : String),
        (p.record_failure now e).failure_count = p.failure_count + 1 ∧
        (p.record_failure now e).total_requests = p.total_requests + 1 ∧
        (p.record_failure now e).success_count = p.success_count) := by
  refine ⟨?_, ?_, ?_⟩
  · intro url ops
    exact applyOps_counters_inv ops { proxy_url := url } rfl
  · intro p now rt
    exact ⟨rfl, rfl, rfl⟩
  · intro p now e
    exact ⟨rfl, rfl, rfl⟩

/-- C2, counterexample.  The claim asserts the outcome returned by `solve`
carries an attempt history with exactly k entries.  The code's outcome for
a failing strategy followed by a succeeding one (k = 2) is the very same
value as for the succeeding strategy alone (k = 1) — the bare result of the
succeeding strategy — so no attempt-history length can be read off the
returned outcome: it would have to be 2 and 1 on the same value. -/
theorem C2_counterexample :
    CaptchaSolver.solve
        [SolverBehavior.returns cexFailR, SolverBehavior.returns cexOkR] =
      CaptchaSolver.solve [SolverBehavior.returns cexOkR] ∧
    ¬ ∃ histLen : CaptchaResult → Nat,
        histLen (CaptchaSolver.solve
          [SolverBehavior.returns cexFailR,
           SolverBehavior.returns cexOkR]) = 2 ∧
        histLen (CaptchaSolver.solve [SolverBehavior.returns cexOkR]) = 1 := by
  refine ⟨rfl, ?_⟩
  rintro ⟨f, h2, h1⟩
  have e : CaptchaSolver.solve
      [SolverBehavior.returns cexFailR, SolverBehavior.returns cexOkR] =
      CaptchaSolver.solve [SolverBehavior.returns cexOkR] := rfl
  rw [e] at h2
  omega

/-- C2, amended.  If strategies 1..k-1 each return failure and strategy k
returns success, `solve` returns strategy k's result itself and the cascade
invokes exactly k strategies (later ones are never attempted); the returned
outcome is that single result — it carries no attempt history. -/
theorem C2_first_success_returned :
    ∀ (tried : List CaptchaResult) (r : CaptchaResult)
      (rest : List SolverBehavior),
      (∀ f ∈ tried, f.success = false) → r.success = true →
      CaptchaSolver.solve
          (tried.map SolverBehavior.returns ++
            SolverBehavior.returns r :: rest) = r ∧
      CaptchaSolver.solveInvoked
          (tried.map SolverBehavior.returns ++
            SolverBehavior.returns r :: rest) = tried.length + 1 := by
  intro tried
  induction tried with
  | nil =>
    intro r rest hf hr
    constructor
    · simp [CaptchaSolver.solve, hr]
    · simp [CaptchaSolver.solveInvoked, hr]
  | cons f tl ih =>
    intro r rest hf hr
    have hfs : f.success = false := hf f (List.mem_cons_self f tl)
    have ih2 := ih r rest (fun g hg => hf g (List.mem_cons_of_mem f hg)) hr
    constructor
    · simpa [CaptchaSolver.solve, hfs] using ih2.1
    · have hstep : CaptchaSolver.solveInvoked
          ((f :: tl).map SolverBehavior.returns ++
            SolverBehavior.returns r :: rest) =
          1 + CaptchaSolver.solveInvoked
            (tl.map SolverBehavior.returns ++
              SolverBehavior.returns r :: rest) := by
        simp [CaptchaSolver.solveInvoked, hfs]
      rw [hstep, ih2.2, List.length_cons]
      omega

/-- C2, witness: one failing strategy then one succeeding strategy; `solve`
returns the succeeding strategy's result and invokes exactly 2 strategies. -/
theorem C2_witness :
    CaptchaSolver.solve
        [SolverBehavior.returns cexFailR, SolverBehavior.returns cexOkR] =
      cexOkR ∧
    CaptchaSolver.solveInvoked
        [SolverBehavior.returns cexFailR, SolverBehavior.returns cexOkR] =
      2 :=
  C2_first_success_returned [cexFailR] cexOkR [] (by decide) rfl

/-- C6, counterexample.  The claim asserts that when every strategy fails
the failure outcome carries the complete list of attempts, one per strategy
tried.  The code returns the constant
`CaptchaResult(success=False, error="All solvers failed")`: a two-strategy
all-fail run and a one-strategy all-fail run return the identical value, so
the outcome cannot carry one attempt per strategy tried. -/
theorem C6_counterexample :
    CaptchaSolver.solve [SolverBehavior.returns cexFailR] =
      CaptchaSolver.allFailedResult ∧
    CaptchaSolver.solve
        [SolverBehavior.returns cexFailR, SolverBehavior.returns cexFailR2] =
      CaptchaSolver.solve [SolverBehavior.returns cexFailR] ∧
    ¬ ∃ attemptsOf : CaptchaResult → Nat,
        attemptsOf (CaptchaSolver.solve
          [SolverBehavior.returns cexFailR,
           SolverBehavior.returns cexFailR2]) = 2 ∧
        attemptsOf (CaptchaSolver.solve [SolverBehavior.returns cexFailR]) =
          1 := by
  refine ⟨rfl, rfl, ?_⟩
  rintro ⟨f, h2, h1⟩
  have e : CaptchaSolver.solve
      [SolverBehavior.returns cexFailR, SolverBehavior.returns cexFailR2] =
      CaptchaSolver.solve [SolverBehavior.returns cexFailR] := rfl
  rw [e] at h2
  omega

/-- C6, amended.  Whenever every configured strategy fails (each one is
skipped, raises, or returns an unsuccessful result), `solve` returns the
fixed failure outcome `success = false`, `error = "All solvers failed"`,
which carries no per-attempt diagnostics. -/
theorem C6_all_fail_outcome :
    ∀ bs : List SolverBehavior,
      (∀ r : CaptchaResult,
        SolverBehavior.returns r ∈ bs → r.success = false) →
      CaptchaSolver.solve bs = CaptchaSolver.allFailedResult ∧
      (CaptchaSolver.solve bs).success = false := by
  intro bs
  induction bs with
  | nil => intro _; exact ⟨rfl, rfl⟩
  | cons b rest ih =>
    intro h
    have ihr := ih fun r hr => h r (List.mem_cons_of_mem b hr)
    cases b with
    | unavailable => simpa [CaptchaSolver.solve] using ihr
    | raised m => simpa [CaptchaSolver.solve] using ihr
    | returns r =>
      have hr : r.success = false := h r (List.mem_cons_self _ _)
      simpa [CaptchaSolver.solve, hr] using ihr

/-- C6, witness: a concrete all-failing run (one unavailable strategy, one
raising strategy, one unsuccessful result) yields the fixed failure
outcome. -/
theorem C6_witness :
    CaptchaSolver.solve
        [SolverBehavior.unavailable, SolverBehavior.raised "boom",
         SolverBehavior.returns cexFailR2] =
      CaptchaSolver.allFailedResult ∧
    (CaptchaSolver.solve
        [SolverBehavior.unavailable, SolverBehavior.raised "boom",
         SolverBehavior.returns cexFailR2]).success = false :=
  C6_all_fail_outcome
    [SolverBehavior.unavailable, SolverBehavior.raised "boom",
     SolverBehavior.returns cexFailR2]
    (by
      intro r hr
      simp only [List.mem_cons, List.not_mem_nil, or_false] at hr
      rcases hr with h | h | h
      · exact SolverBehavior.noConfusion h
      · exact SolverBehavior.noConfusion h
      · injection h with h2
        subst h2
        rfl)

/-- The token count `acquire` leaves behind: `0` after a wait, else the
refilled count minus one. -/
theorem acquire_tokens (s : RateLimiterState) (now : ℚ) :
    (RateLimiter.acquire s now).tokens =
      if RateLimiter.refillTokens s now < 1 then (0 : ℚ)
      else RateLimiter.refillTokens s now - 1 := by
  by_cases hc : RateLimiter.refillTokens s now < 1 <;>
    simp [RateLimiter.acquire, hc]

/-- C3, counterexample.  The claim asserts tokens are decreased by exactly
1 for each granted acquisition.  From the state holding half a token, an
`acquire` call (granted after its internal sleep) sets the count to `0`: a
decrease of 1/2, not 1 (the code writes `self.tokens = 0` in the wait
branch instead of crediting the slept time and subtracting 1). -/
theorem C3_counterexample :
    RateLimiter.refillTokens c3State 0 = 1 / 2 ∧
    (RateLimiter.acquire c3State 0).tokens = 0 ∧
    RateLimiter.refillTokens c3State 0 -
      (RateLimiter.acquire c3State 0).tokens ≠ 1 := by
  refine ⟨?_, ?_, ?_⟩ <;>
    norm_num [RateLimiter.refillTokens, RateLimiter.acquire, c3State]

/-- C3, amended.  Under monotone time and nonnegative rate, the token count
stays within `[0, capacity]` and is only ever increased by the lazy refill
`min(capacity, tokens + elapsed*rate)`; a granted acquisition that found at
least one refilled token decreases the count by exactly 1, while a granted
acquisition that had towait sets the count to 0 (decreasing it by the
refilled amount, which is below 1). -/
theorem C3_token_bucket :
    ∀ (s : RateLimiterState) (now : ℚ),
      0 ≤ s.tokens → s.tokens ≤ s.burst → s.last_update ≤ now →
      0 ≤ s.rate_per_second →
      (0 ≤ (RateLimiter.acquire s now).tokens ∧
        (RateLimiter.acquire s now).tokens ≤ s.burst) ∧
      (0 ≤ RateLimiter.refillTokens s now ∧
        RateLimiter.refillTokens s now ≤ s.burst) ∧
      (RateLimiter.acquire s now).tokens ≤ RateLimiter.refillTokens s now ∧
      (1 ≤ RateLimiter.refillTokens s now →
        (RateLimiter.acquire s now).tokens =
          RateLimiter.refillTokens s now - 1) ∧
      (RateLimiter.refillTokens s now < 1 →
        (RateLimiter.acquire s now).tokens = 0) := by
  intro s now h0 hb hlu hr
  have hburst : 0 ≤ s.burst := le_trans h0 hb
  have helapsed : 0 ≤ (now - s.last_update) * s.rate_per_second :=
    mul_nonneg (by linarith) hr
  have hT0 : 0 ≤ RateLimiter.refillTokens s now := by
    unfold RateLimiter.refillTokens
    exact le_min hburst (by linarith)
  have hTb : RateLimiter.refillTokens s now ≤ s.burst := min_le_left _ _
  rw [acquire_tokens]
  by_cases hc : RateLimiter.refillTokens s now < 1
  · rw [if_pos hc]
    exact ⟨⟨le_refl 0, hburst⟩, ⟨hT0, hTb⟩, hT0,
      fun h1 => absurd hc (not_lt.mpr h1), fun _ => rfl⟩
  · rw [if_neg hc]
    have h1 : 1 ≤ RateLimiter.refillTokens s now := not_lt.mp hc
    exact ⟨⟨by linarith, by linarith⟩, ⟨hT0, hTb⟩, by linarith,
      fun _ => rfl, fun h => absurd h hc⟩

/-- C3, witness: the amended theorem at the source's initial state
(capacity 10, rate 1/s, full bucket), acquiring at time 0. -/
theorem C3_witness :
    (0 ≤ (RateLimiter.acquire c3Full 0).tokens ∧
      (RateLimiter.acquire c3Full 0).tokens ≤ c3Full.burst) ∧
    (0 ≤ RateLimiter.refillTokens c3Full 0 ∧
      RateLimiter.refillTokens c3Full 0 ≤ c3Full.burst) ∧
    (RateLimiter.acquire c3Full 0).tokens ≤
      RateLimiter.refillTokens c3Full 0 ∧
    (1 ≤ RateLimiter.refillTokens c3Full 0 →
      (RateLimiter.acquire c3Full 0).tokens =
        RateLimiter.refillTokens c3Full 0 - 1) ∧
    (RateLimiter.refillTokens c3Full 0 < 1 →
      (RateLimiter.acquire c3Full 0).tokens = 0) :=
  C3_token_bucket c3Full 0 (by norm_num [c3Full]) (by norm_num [c3Full])
    (by norm_num [c3Full]) (by norm_num [c3Full])

/-- Whatever the weighted-pick loop returns is a list member or the
fallback. -/
theorem pickGo_result (fb : Option ProxyInfo) (rand : ℚ) :
    ∀ (m : List ProxyInfo) (c : ℚ) (p : ProxyInfo),
      ProxyPool.pickGo fb rand m c = some p → p ∈ m ∨ fb = some p := by
  intro m
  induction m with
  | nil => intro c p h; exact Or.inr h
  | cons q rest ih =>
    intro c p h
    simp only [ProxyPool.pickGo] at h
    split at h
    · exact Or.inl (Option.some_inj.mp h ▸ List.mem_cons_self q rest)
    · rcases ih _ p h with hm | hfb
      · exact Or.inl (List.mem_cons_of_mem q hm)
      · exact Or.inr hfb

/-- With a present fallback, the weighted-pick loop always yields a
candidate. -/
theorem pickGo_isSome (fb : Option ProxyInfo) (rand : ℚ)
    (hfb : fb.isSome) :
    ∀ (m : List ProxyInfo) (c : ℚ), (ProxyPool.pickGo fb rand m c).isSome := by
  intro m
  induction m with
  | nil => intro c; exact hfb
  | cons q rest ih =>
    intro c
    simp only [ProxyPool.pickGo]
    split
    · rfl
    · exact ih _

/-- The selection step only ever returns members of the candidate list. -/
theorem weightedSelect_mem {l : List ProxyInfo} {rand : ℚ} {i : Nat}
    {p : ProxyInfo}
    (h : ProxyPool.weightedSelect l rand i = some p) : p ∈ l := by
  simp only [ProxyPool.weightedSelect] at h
  split at h
  · exact absurd h (by simp)
  · split at h
    · exact List.get?_mem h
    · rcases pickGo_result _ _ l 0 p h with hm | hlast
      · exact hm
      · exact List.mem_of_mem_getLast? hlast

/-- On a nonempty candidate list the selection step always yields a
candidate. -/
theorem weightedSelect_isSome {l : List ProxyInfo} (rand : ℚ) (i : Nat)
    (hl : l ≠ []) : (ProxyPool.weightedSelect l rand i).isSome := by
  simp only [ProxyPool.weightedSelect]
  split
  next he => exact absurd (List.isEmpty_iff.mp he) hl
  next he =>
    split
    · have hlen : 0 < l.length := List.length_pos.mpr hl
      rw [List.get?_eq_get (Nat.mod_lt _ hlen)]
      rfl
    · exact pickGo_isSome _ _ (List.getLast?_isSome.mpr hl) _ _

/-- Restricted to environments where the source call completes (auto-fetch
disabled, or an empty feed so that no `add_proxy` runs and revalidation is
skipped), `get_proxy` leaves the pool untouched. -/
theorem select_pool_unchanged (env : ProxyPool.SelectEnv)
    (pool : List ProxyInfo)
    (henv : env.auto_fetch = false ∨ env.fetched = []) :
    (if env.auto_fetch then
      ProxyPool.auto_fetch_proxies env.now env.timeout env.probe
        env.fetched pool
    else pool) = pool := by
  rcases henv with haf | hf
  · rw [haf]
    rfl
  · have hfe : ProxyPool.auto_fetch_proxies env.now env.timeout env.probe
        env.fetched pool = pool := by
      rw [hf]
      rfl
    rw [hfe, ite_self]

/-- C4: over every environment in which the source call completes
(auto-fetch disabled or an empty replenishment feed — with a non-empty feed
the source deadlocks on its own lock before returning), `select` returns a
`Working` candidate at or above the threshold whenever one exists; any
returned candidate is a non-`Failed` member of the pool; and it returns
`none` exactly when no non-`Failed` candidate exists. -/
theorem C4_select_contract :
    ∀ (env : ProxyPool.SelectEnv) (pool : List ProxyInfo) (thr : ℚ),
      env.auto_fetch = false ∨ env.fetched = [] →
      ((∃ p ∈ pool, p.status = ProxyStatus.working ∧ thr ≤ p.quality_score) →
        ∃ q, (ProxyPool.get_proxy env pool thr).1 = some q ∧ q ∈ pool ∧
          q.status = ProxyStatus.working ∧ thr ≤ q.quality_score) ∧
      (∀ q, (ProxyPool.get_proxy env pool thr).1 = some q →
        q ∈ pool ∧ q.status ≠ ProxyStatus.failed) ∧
      ((ProxyPool.get_proxy env pool thr).1 = none ↔
        ∀ p ∈ pool, p.status = ProxyStatus.failed) := by
  intro env pool thr henv
  have hp1 := select_pool_unchanged env pool henv
  by_cases hE : (pool.filter fun p =>
      decide (p.status = ProxyStatus.working ∧
        thr ≤ p.quality_score)).isEmpty
  · -- no qualifying Working candidate: fall back over the unchanged pool
    have hgp : ProxyPool.get_proxy env pool thr =
        ((ProxyPool.weightedSelect
          (pool.filter fun p => decide (p.status ≠ ProxyStatus.failed))
          env.rand env.choiceIdx), pool) := by
      simp only [ProxyPool.get_proxy]
      rw [if_pos hE, hp1]
    rw [hgp]
    dsimp only
    refine ⟨?_, ?_, ?_⟩
    · rintro ⟨p, hp, hw, hq⟩
      exfalso
      have hmem : p ∈ pool.filter fun p =>
          decide (p.status = ProxyStatus.working ∧
            thr ≤ p.quality_score) :=
        List.mem_filter.mpr ⟨hp, decide_eq_true ⟨hw, hq⟩⟩
      rw [List.isEmpty_iff.mp hE] at hmem
      exact List.not_mem_nil p hmem
    · intro q hq
      have hmem := weightedSelect_mem hq
      rcases List.mem_filter.mp hmem with ⟨hq2, hdec⟩
      exact ⟨hq2, of_decide_eq_true hdec⟩
    · constructor
      · intro hnone p hp
        by_contra hpf
        have hmem : p ∈ pool.filter fun p =>
            decide (p.status ≠ ProxyStatus.failed) :=
          List.mem_filter.mpr ⟨hp, decide_eq_true hpf⟩
        have hne : (pool.filter fun p =>
            decide (p.status ≠ ProxyStatus.failed)) ≠ [] :=
          List.ne_nil_of_mem hmem
        have := weightedSelect_isSome env.rand env.choiceIdx hne
        rw [hnone] at this
        exact Bool.noConfusion this
      · intro hall
        have hnil : (pool.filter fun p =>
            decide (p.status ≠ ProxyStatus.failed)) = [] := by
          rw [List.filter_eq_nil_iff]
          intro p hp
          rw [hall p hp]
          simp
        rw [hnil]
        rfl
  · -- a qualifying Working candidate exists: pick among those, pool intact
    have hgp : ProxyPool.get_proxy env pool thr =
        ((ProxyPool.weightedSelect
          (pool.filter fun p =>
            decide (p.status = ProxyStatus.working ∧
              thr ≤ p.quality_score))
          env.rand env.choiceIdx), pool) := by
      simp only [ProxyPool.get_proxy]
      rw [if_neg hE]
    rw [hgp]
    dsimp only
    have hne : (pool.filter fun p =>
        decide (p.status = ProxyStatus.working ∧
          thr ≤ p.quality_score)) ≠ [] := by
      intro hnil
      exact hE (by rw [hnil]; rfl)
    refine ⟨?_, ?_, ?_⟩
    · intro _
      rcases Option.isSome_iff_exists.mp
        (weightedSelect_isSome env.rand env.choiceIdx hne) with ⟨q, hq⟩
      have hmem := weightedSelect_mem hq
      rcases List.mem_filter.mp hmem with ⟨hq2, hdec⟩
      rcases of_decide_eq_true hdec with ⟨hw, hqual⟩
      exact ⟨q, hq, hq2, hw, hqual⟩
    · intro q hq
      have hmem := weightedSelect_mem hq
      rcases List.mem_filter.mp hmem with ⟨hq2, hdec⟩
      rcases of_decide_eq_true hdec with ⟨hw, _⟩
      exact ⟨hq2, by rw [hw]; exact fun h => ProxyStatus.noConfusion h⟩
    · constructor
      · intro hnone
        have := weightedSelect_isSome env.rand env.choiceIdx hne
        rw [hnone] at this
        exact Bool.noConfusion this
      · intro hall
        exfalso
        rcases List.exists_mem_of_ne_nil _ hne with ⟨q, hq⟩
        rcases List.mem_filter.mp hq with ⟨hq2, hdec⟩
        rcases of_decide_eq_true hdec with ⟨hw, _⟩
        rw [hall q hq2] at hw
        exact ProxyStatus.noConfusion hw

/-- C4, witness: a one-candidate pool whose candidate is `Working` at the
default quality of 50 with threshold 30, auto-fetch disabled. -/
theorem C4_witness :
    ∃ q, (ProxyPool.get_proxy c4Env [c4Proxy] 30).1 = some q ∧
      q ∈ [c4Proxy] ∧ q.status = ProxyStatus.working ∧
      (30 : ℚ) ≤ q.quality_score :=
  (C4_select_contract c4Env [c4Proxy] 30 (Or.inl rfl)).1
    ⟨c4Proxy, by simp, rfl, by norm_num [c4Proxy]⟩

/-- C5, counterexample.  The claim asserts failure recording retires a
candidate only when the failure count exceeds the ceiling AND exceeds the
success count, so a candidate with 50 successes and a 10th failure should
remain pooled.  The code removes it: `mark_failure` deletes any candidate
whose `failure_count` reaches 10, with no comparison to `success_count`
(after this failure the candidate has 50 successes against 10 failures). -/
theorem C5_counterexample :
    ProxyPool.mark_failure 0 "" "u" [c5Proxy] = [] ∧
    (c5Proxy.record_failure 0 "").failure_count ≤
      (c5Proxy.record_failure 0 "").success_count := by
  constructor
  · decide
  · decide

/-- C5, amended.  Failure recording retires a candidate exactly when its
new `failure_count` has reached the hard ceiling of 10, irrespective of its
`success_count`; the `failureCount > successCount` conjunction governs only
the `Failed` status transition (at 3 or more failures), not retirement. -/
theorem C5_retirement_condition :
    ∀ (now : ℚ) (error url : String) (pool : List ProxyInfo)
      (q : ProxyInfo),
      (q ∈ pool.map (fun p =>
          if p.proxy_url = url then p.record_failure now error else p) →
        (q ∈ ProxyPool.mark_failure now error url pool ↔
          ¬(q.proxy_url = url ∧ 10 ≤ q.failure_count))) ∧
      ((q.record_failure now error).status = ProxyStatus.failed ↔
        ((3 ≤ q.failure_count + 1 ∧
            q.success_count < q.failure_count + 1) ∨
          q.status = ProxyStatus.failed)) := by
  intro now error url pool q
  constructor
  · intro hq
    simp only [ProxyPool.mark_failure, List.mem_filter]
    simp only [hq, true_and, Bool.not_eq_true', Bool.and_eq_false_iff,
      decide_eq_false_iff_not, not_and, not_le]
    constructor
    · rintro (hurl | hfc)
      · exact fun h => absurd h hurl
      · exact fun _ => hfc
    · intro h
      by_cases hurl : q.proxy_url = url
      · exact Or.inr (h hurl)
      · exact Or.inl hurl
  · rw [record_failure_status]
    by_cases hc : 3 ≤ q.failure_count + 1 ∧
        q.success_count < q.failure_count + 1
    · rw [if_pos hc]
      exact ⟨fun _ => Or.inl hc, fun _ => rfl⟩
    · rw [if_neg hc]
      constructor
      · exact fun hs => Or.inr hs
      · rintro (hcond | hs)
        · exact absurd hcond hc
        · exact hs

/-- C5, witness: the amended theorem at the veteran candidate receiving its
10th failure. -/
theorem C5_witness :
    ((c5Proxy.record_failure 0 "") ∈
        ProxyPool.mark_failure 0 "" "u" [c5Proxy] ↔
      ¬((c5Proxy.record_failure 0 "").proxy_url = "u" ∧
        10 ≤ (c5Proxy.record_failure 0 "").failure_count)) ∧
    ((c5Proxy.record_failure 0 "").status = ProxyStatus.failed ↔
      ((3 ≤ c5Proxy.failure_count + 1 ∧
          c5Proxy.success_count < c5Proxy.failure_count + 1) ∨
        c5Proxy.status = ProxyStatus.failed)) :=
  ⟨(C5_retirement_condition 0 "" "u" [c5Proxy]
      (c5Proxy.record_failure 0 "")).1 (by simp [c5Proxy]),
   (C5_retirement_condition 0 "" "u" [c5Proxy] c5Proxy).2⟩

/-- C7: over every environment in which the source call completes
(auto-fetch disabled or an empty replenishment feed — with a non-empty feed
the source deadlocks at `add_proxy`'s re-acquisition of the lock held by
`get_proxy`, before inserting anything, so revalidation is unreachable from
`select`), `select` returns the pool exactly as it was: every candidate's
`success_count`, `failure_count` and `total_requests` are unchanged. -/
theorem C7_select_frame :
    ∀ (env : ProxyPool.SelectEnv) (pool : List ProxyInfo) (thr : ℚ),
      env.auto_fetch = false ∨ env.fetched = [] →
      (ProxyPool.get_proxy env pool thr).2 = pool ∧
      ((ProxyPool.get_proxy env pool thr).2.map fun p =>
        (p.success_count, p.failure_count, p.total_requests)) =
        (pool.map fun p =>
          (p.success_count, p.failure_count, p.total_requests)) := by
  intro env pool thr henv
  have hp1 := select_pool_unchanged env pool henv
  have hfr : (ProxyPool.get_proxy env pool thr).2 = pool := by
    by_cases hE : (pool.filter fun p =>
        decide (p.status = ProxyStatus.working ∧
          thr ≤ p.quality_score)).isEmpty
    · simp only [ProxyPool.get_proxy]
      rw [if_pos hE]
      dsimp only
      exact hp1
    · simp only [ProxyPool.get_proxy]
      rw [if_neg hE]
  exact ⟨hfr, by rw [hfr]⟩

/-- C7, witness: auto-fetch disabled on a one-candidate pool; the pool and
its counters come back unchanged. -/
theorem C7_witness :
    (ProxyPool.get_proxy c4Env [c4Proxy] 30).2 = [c4Proxy] ∧
    ((ProxyPool.get_proxy c4Env [c4Proxy] 30).2.map fun p =>
      (p.success_count, p.failure_count, p.total_requests)) =
      ([c4Proxy].map fun p =>
        (p.success_count, p.failure_count, p.total_requests)) :=
  C7_select_frame c4Env [c4Proxy] 30 (Or.inl rfl)

/-- The source's quality sum is exactly the weighted form
`0.4·(100·successRate) + 0.3·latency + 0.2·recency + 0.1·stability` with a
latency ceiling of ONE second. -/
theorem update_quality_formula (now : ℚ) (p : ProxyInfo) :
    (p.update_quality_score now).quality_score =
      (4 / 10) * (100 * p.success_rate)
        + (3 / 10) * max 0 (100 * (1 - p.avg_response_time))
        + (2 / 10) * recency100 now p
        + (1 / 10) * stability100 p := by
  have h4 : (4 / 10 : ℚ) * (100 * p.success_rate) =
      p.success_rate_score := by
    unfold ProxyInfo.success_rate_score
    ring
  have h3 : (3 / 10 : ℚ) * max 0 (100 * (1 - p.avg_response_time)) =
      p.response_time_score := by
    unfold ProxyInfo.response_time_score
    rw [mul_max_of_nonneg _ _ (by norm_num : (0 : ℚ) ≤ 3 / 10)]
    congr 1
    · norm_num
    · ring
  have h2 : (2 / 10 : ℚ) * recency100 now p =
      p.recent_success_score now := by
    unfold recency100 ProxyInfo.recent_success_score
    cases hls : p.last_success_time with
    | none => norm_num
    | some t =>
      rw [mul_max_of_nonneg _ _ (by norm_num : (0 : ℚ) ≤ 2 / 10)]
      congr 1
      · norm_num
      · ring
  have h1 : (1 / 10 : ℚ) * stability100 p = p.stability_score := by
    unfold stability100 ProxyInfo.stability_score
    rw [mul_max_of_nonneg _ _ (by norm_num : (0 : ℚ) ≤ 1 / 10)]
    congr 1
    · norm_num
    · ring
  rw [h4, h3, h2, h1]
  rfl

/-- With well-formed counters, a nonnegative moving average and a
non-future last success, the recomputed quality score lies in `[0, 100]`. -/
theorem quality_components_bounds (now : ℚ) (p : ProxyInfo)
    (hsr : p.success_count ≤ p.total_requests)
    (hart : 0 ≤ p.avg_response_time)
    (hrec : ∀ t, p.last_success_time = some t → t ≤ now) :
    0 ≤ (p.update_quality_score now).quality_score ∧
      (p.update_quality_score now).quality_score ≤ 100 := by
  have hsr0 : 0 ≤ p.success_rate := by
    unfold ProxyInfo.success_rate
    split
    · exact le_refl 0
    · positivity
  have hsr1 : p.success_rate ≤ 1 := by
    unfold ProxyInfo.success_rate
    split
    · norm_num
    next h =>
      rw [div_le_one (by exact_mod_cast Nat.pos_of_ne_zero h)]
      exact_mod_cast hsr
  have hsrs : 0 ≤ p.success_rate_score ∧ p.success_rate_score ≤ 40 := by
    unfold ProxyInfo.success_rate_score
    constructor
    · nlinarith
    · nlinarith
  have hrts : 0 ≤ p.response_time_score ∧ p.response_time_score ≤ 30 := by
    unfold ProxyInfo.response_time_score
    exact ⟨le_max_left _ _, max_le (by norm_num) (by nlinarith)⟩
  have hrss : 0 ≤ p.recent_success_score now ∧
      p.recent_success_score now ≤ 20 := by
    unfold ProxyInfo.recent_success_score
    cases hls : p.last_success_time with
    | none => norm_num
    | some t =>
      refine ⟨le_max_left _ _, max_le (by norm_num) ?_⟩
      have ht : t ≤ now := hrec t hls
      have hdiv : 0 ≤ (now - t) / 3600 :=
        div_nonneg (by linarith) (by norm_num)
      linarith
  have hss : 0 ≤ p.stability_score ∧ p.stability_score ≤ 10 := by
    unfold ProxyInfo.stability_score
    refine ⟨le_max_left _ _, max_le (by norm_num) ?_⟩
    have hfc : (0 : ℚ) ≤ (p.failure_count : ℚ) := Nat.cast_nonneg _
    linarith
  have hq : (p.update_quality_score now).quality_score =
      p.success_rate_score + p.response_time_score +
        p.recent_success_score now + p.stability_score := rfl
  rw [hq]
  constructor
  · linarith [hsrs.1, hrts.1, hrss.1, hss.1]
  · linarith [hsrs.2, hrts.2, hrss.2, hss.2]

/-- C8, counterexample.  The claim fixes the latency-score ceiling at 3
seconds, so a 1-second and a 2-second average latency (both under the
ceiling) must earn different, positive latency contributions.  The code's
ceiling is 1 second: two fresh candidates recording one success with
latency 1s and 2s respectively both end at quality 70, where the claimed
3-second-ceiling formula yields 90 and 80. -/
theorem C8_counterexample :
    (ProxyInfo.record_success 0 1 { proxy_url := "u" }).quality_score =
      70 ∧
    (ProxyInfo.record_success 0 2 { proxy_url := "u" }).quality_score =
      70 ∧
    quality_score_claim3s 0
      (ProxyInfo.record_success 0 1 { proxy_url := "u" }) = 90 ∧
    quality_score_claim3s 0
      (ProxyInfo.record_success 0 2 { proxy_url := "u" }) = 80 ∧
    (70 : ℚ) ≠ 90 := by
  refine ⟨?_, ?_, ?_, ?_, ?_⟩ <;>
    norm_num [ProxyInfo.record_success, ProxyInfo.update_quality_score,
      ProxyInfo.success_rate_score, ProxyInfo.response_time_score,
      ProxyInfo.recent_success_score, ProxyInfo.stability_score,
      ProxyInfo.success_rate, quality_score_claim3s, recency100,
      stability100]

/-- C8, amended.  After every `record_success`/`record_failure` (with
well-formed inputs), the quality score equals the weighted sum
`0.4·(100·successRate) + 0.3·latencyScore + 0.2·recencyScore +
0.1·stabilityScore` where the latency score decays linearly to 0 at a
ceiling of ONE second (not three), and the score always lies in
`[0, 100]`. -/
theorem C8_quality_weighted_sum :
    ∀ (p : ProxyInfo) (op : RecordOp),
      p.success_count ≤ p.total_requests →
      0 ≤ p.avg_response_time →
      0 ≤ opResponseTime op →
      (∀ t, p.last_success_time = some t → t ≤ opNow op) →
      ((applyOp p op).quality_score =
        (4 / 10) * (100 * (applyOp p op).success_rate)
          + (3 / 10) *
            max 0 (100 * (1 - (applyOp p op).avg_response_time))
          + (2 / 10) * recency100 (opNow op) (applyOp p op)
          + (1 / 10) * stability100 (applyOp p op)) ∧
      0 ≤ (applyOp p op).quality_score ∧
      (applyOp p op).quality_score ≤ 100 := by
  intro p op hsr hart hrt hrec
  cases op with
  | success now rt =>
    refine ⟨update_quality_formula now _, ?_⟩
    apply quality_components_bounds now
    · show p.success_count + 1 ≤ p.total_requests + 1
      omega
    · show (0 : ℚ) ≤
        if p.avg_response_time = 0 then rt
        else p.avg_response_time * (4 / 5) + rt * (1 / 5)
      have hrt0 : (0 : ℚ) ≤ rt := hrt
      split
      · exact hrt0
      · linarith
    · intro t ht
      have h2 : now = t := Option.some_inj.mp ht
      exact le_of_eq h2.symm
  | failure now e =>
    refine ⟨update_quality_formula now _, ?_⟩
    apply quality_components_bounds now
    · show p.success_count ≤ p.total_requests + 1
      omega
    · exact hart
    · intro t ht
      exact hrec t ht

/-- C8, witness: the amended theorem on a fresh candidate recording one
success with latency 1s at time 0. -/
theorem C8_witness :
    ((applyOp { proxy_url := "u" } (RecordOp.success 0 1)).quality_score =
      (4 / 10) * (100 *
        (applyOp { proxy_url := "u" } (RecordOp.success 0 1)).success_rate)
        + (3 / 10) * max 0 (100 * (1 -
          (applyOp { proxy_url := "u" }
            (RecordOp.success 0 1)).avg_response_time))
        + (2 / 10) * recency100 (opNow (RecordOp.success 0 1))
          (applyOp { proxy_url := "u" } (RecordOp.success 0 1))
        + (1 / 10) * stability100
          (applyOp { proxy_url := "u" } (RecordOp.success 0 1))) ∧
    0 ≤ (applyOp { proxy_url := "u" }
      (RecordOp.success 0 1)).quality_score ∧
    (applyOp { proxy_url := "u" }
      (RecordOp.success 0 1)).quality_score ≤ 100 :=
  C8_quality_weighted_sum { proxy_url := "u" } (RecordOp.success 0 1)
    (by norm_num) (by norm_num) (by norm_num [opResponseTime])
    (by intro t ht; exact Option.noConfusion ht)

/-- C9: every erroring probe (timeout, exception, or non-200 response) is
returned by the validator as a not-reachable result carrying the error —
never propagated; `_validate_single` records such a result as a candidate
failure; and `get_proxy` on an empty pool (with nothing on the
replenishment feed) reports `none`, not a fault. -/
theorem C9_errors_absorbed :
    ∀ (timeout : ℚ) (probe : ProbeOutcome),
      ((probe = ProbeOutcome.timeout ∨
        (∃ m e, probe = ProbeOutcome.exc m e) ∨
        (∃ st e, probe = ProbeOutcome.httpResp st e ∧ st ≠ 200)) →
        (validate_proxy timeout probe).valid = false ∧
        (validate_proxy timeout probe).error ≠ none) ∧
      (∀ (p : ProxyInfo) (now : ℚ),
        (validate_proxy timeout probe).valid = false →
        (ProxyPool.validateSingle now (validate_proxy timeout probe)
          p).failure_count = p.failure_count + 1 ∧
        (ProxyPool.validateSingle now (validate_proxy timeout probe)
          p).total_requests = p.total_requests + 1) ∧
      (∀ (env : ProxyPool.SelectEnv) (thr : ℚ), env.fetched = [] →
        (ProxyPool.get_proxy env [] thr).1 = none) := by
  intro timeout probe
  refine ⟨?_, ?_, ?_⟩
  · intro herr
    cases probe with
    | timeout => exact ⟨rfl, by simp [validate_proxy]⟩
    | exc m e => exact ⟨rfl, by simp [validate_proxy]⟩
    | httpResp st e =>
      rcases herr with h | ⟨m, e2, h⟩ | ⟨st2, e2, h, hne⟩
      · exact ProbeOutcome.noConfusion h
      · exact ProbeOutcome.noConfusion h
      · injection h with h1 h2
        subst h1
        constructor
        · simp [validate_proxy, hne]
        · simp [validate_proxy, hne]
  · intro p now hinv
    have hvs : ProxyPool.validateSingle now (validate_proxy timeout probe)
        p = ProxyInfo.record_failure now
          ((validate_proxy timeout probe).error.getD "Unknown error")
          { p with status := ProxyStatus.testing } := by
      simp [ProxyPool.validateSingle, hinv]
    rw [hvs]
    exact ⟨rfl, rfl⟩
  · intro env thr hf
    simp [ProxyPool.get_proxy, ProxyPool.auto_fetch_proxies,
      ProxyPool.weightedSelect, hf]

/-- C9, witness: a timed-out probe with a 10-second validator timeout,
recorded on the working candidate, and selection over the empty pool. -/
theorem C9_witness :
    ((validate_proxy 10 ProbeOutcome.timeout).valid = false ∧
      (validate_proxy 10 ProbeOutcome.timeout).error ≠ none) ∧
    ((ProxyPool.validateSingle 0 (validate_proxy 10 ProbeOutcome.timeout)
        c4Proxy).failure_count = c4Proxy.failure_count + 1 ∧
      (ProxyPool.validateSingle 0 (validate_proxy 10 ProbeOutcome.timeout)
        c4Proxy).total_requests = c4Proxy.total_requests + 1) ∧
    (ProxyPool.get_proxy c4Env [] 30).1 = none :=
  ⟨(C9_errors_absorbed 10 ProbeOutcome.timeout).1 (Or.inl rfl),
   (C9_errors_absorbed 10 ProbeOutcome.timeout).2.1 c4Proxy 0 rfl,
   (C9_errors_absorbed 10 ProbeOutcome.timeout).2.2 c4Env 30 rfl⟩

end CorpCraft
